import Mathlib

set_option maxHeartbeats 1000000

/-! Shallow embedding of the kubectx argument resolver (cmd/kubectx/flags.go) and of
the context/namespace switch engines (cmd/kubectx/switch.go).

External collaborators that are not among the translated sources (the
internal/kubeconfig config store, the previous-context state-file helpers
readLastContext/writeLastContext, and parseRenameSyntax from rename.go) are modelled
from the specification; each such definition is marked in its doc comment. -/

deriving instance DecidableEq for Except

/-- Association-list lookup with string keys, used to model per-context values and the
state-file directory (path to contents). -/
def lookupA : List (String × String) → String → Option String
  | [], _ => none
  | p :: rest, k => if p.1 = k then some p.2 else lookupA rest k

/-- Association-list overwrite-or-insert: last-writer-wins persistence of a keyed
value. -/
def setA (k v : String) : List (String × String) → List (String × String)
  | [] => [(k, v)]
  | p :: rest => if p.1 = k then (k, v) :: rest else p :: setA k v rest

/-- The closed set of operations the argument resolver can produce (the Op
implementations across cmd/kubectx). -/
inductive Op where
  | ListOp : Op
  | InteractiveSwitchOp (selfCmd : String) : Op
  | InteractiveDeleteOp (selfCmd : String) : Op
  | HelpOp : Op
  | VersionOp : Op
  | CurrentOp : Op
  | UnsetOp : Op
  | DeleteOp (contexts : List String) : Op
  | RenameOp (newName oldName : String) : Op
  | SwitchOp (target ns : String) : Op
  | UnsupportedOp (reason : String) : Op
deriving DecidableEq

/-- strings.HasPrefix(v, dash) for the one-character pattern: the first character of
the token is a dash. -/
def startsWithDash (v : String) : Bool :=
  match v.data with
  | [] => false
  | c :: _ => c == '-'

/-- Splits a character list at the first occurrence of the character =, when any. -/
def splitOnFirstEq : List Char → Option (List Char × List Char)
  | [] => none
  | c :: rest =>
    if c = '=' then some ([], rest)
    else
      match splitOnFirstEq rest with
      | none => none
      | some (a, b) => some (c :: a, b)

/-- Modelled from the spec: parseRenameSyntax lives in cmd/kubectx/rename.go, which is
not among the given sources.  Spec 4.1/4.4: a token of the form NEW=OLD with exactly
one = and both sides non-empty is a rename; any other token is not. -/
def parseRenameSyntax (v : String) : Option (String × String) :=
  match splitOnFirstEq v.data with
  | none => none
  | some (a, b) =>
    if a ≠ [] ∧ b ≠ [] ∧ ¬ ('=' ∈ b) then some (String.mk a, String.mk b) else none

/-- Result of the namespace-flag scan (flags.go lines 54-73): locate the first
occurrence of -n or --namespace; a flag in last position has no value token and aborts
resolution; otherwise the flag token and its value token are removed from the sequence
and the value is remembered. -/
inductive NSScan where
  | noFlag : NSScan
  | flagNoValue : NSScan
  | found (ns : String) (remaining : List String) : NSScan
deriving DecidableEq

/-- The namespace-flag scan and removal of flags.go lines 54-73: the value of the
first namespace flag together with the other tokens in their original order. -/
def scanNSFlag : List String → NSScan
  | [] => .noFlag
  | t :: rest =>
    if t = "-n" ∨ t = "--namespace" then
      match rest with
      | [] => .flagNoValue
      | v :: rest2 => .found v rest2
    else
      match scanNSFlag rest with
      | .noFlag => .noFlag
      | .flagNoValue => .flagNoValue
      | .found v r => .found v (t :: r)

/-- Classification of a single remaining token (flags.go lines 85-108), with the
remembered namespace value. -/
def classifySingle (v : String) (ns : String) : Op :=
  if v = "--help" ∨ v = "-h" then .HelpOp
  else if v = "--version" ∨ v = "-V" then .VersionOp
  else if v = "--current" ∨ v = "-c" then .CurrentOp
  else if v = "--unset" ∨ v = "-u" then .UnsetOp
  else
    match parseRenameSyntax v with
    | some (a, b) => .RenameOp a b
    | none =>
      if startsWithDash v = true ∧ v ≠ "-" then
        .UnsupportedOp ("unsupported option \x27" ++ v ++ "\x27")
      else .SwitchOp v ns

/-- The tail of parseArgs after namespace-flag removal (flags.go lines 75-109). -/
def parseTail (selfCmd : String) (interactive : Bool) (ns : String) : List String → Op
  | [] =>
    if ns ≠ "" then .UnsupportedOp "context name is required when using -n flag"
    else if interactive then .InteractiveSwitchOp selfCmd
    else .ListOp
  | [v] => classifySingle v ns
  | _ :: _ :: _ => .UnsupportedOp "too many arguments"

/-- parseArgs (flags.go lines 35-110): maps argv[0] (selfCmd), the single
terminal-interactivity answer and the raw tokens to exactly one operation. -/
def parseArgs (selfCmd : String) (interactive : Bool) (argv : List String) : Op :=
  match argv with
  | [] => if interactive then .InteractiveSwitchOp selfCmd else .ListOp
  | a0 :: rest =>
    if a0 = "-d" then
      match rest with
      | [] =>
        if interactive then .InteractiveDeleteOp selfCmd
        else .UnsupportedOp "\x27-d\x27 needs arguments"
      | _ :: _ => .DeleteOp rest
    else
      match scanNSFlag (a0 :: rest) with
      | .flagNoValue => .UnsupportedOp "\x27-n\x27 requires a namespace argument"
      | .noFlag => parseTail selfCmd interactive "" (a0 :: rest)
      | .found ns remaining => parseTail selfCmd interactive ns remaining

/-- The kubeconfig state the engines touch: the context names, the active-context
pointer (empty string = none) and the namespace recorded per context. -/
structure Kubeconfig where
  contexts : List String
  currentContext : String
  namespaces : List (String × String)
deriving DecidableEq

/-- Modelled from the spec: Config Store ContextExists (internal/kubeconfig is not
among the given sources). -/
def Kubeconfig.ContextExists (kc : Kubeconfig) (name : String) : Bool :=
  decide (name ∈ kc.contexts)

/-- Modelled from the spec: Config Store NamespaceOfContext - the namespace recorded
for a context (may be empty/default), an error when the context is unknown. -/
def Kubeconfig.NamespaceOfContext (kc : Kubeconfig) (ctx : String) : Except Unit String :=
  if ctx ∈ kc.contexts then .ok ((lookupA kc.namespaces ctx).getD "") else .error ()

/-- Modelled from the spec: Config Store SetNamespace - records the namespace for a
context, an error when the context is unknown. -/
def Kubeconfig.SetNamespace (kc : Kubeconfig) (ctx ns : String) : Except Unit Kubeconfig :=
  if ctx ∈ kc.contexts then .ok { kc with namespaces := setA ctx ns kc.namespaces }
  else .error ()

/-- NSFile (switch.go lines 190-200): locator of the per-context previous-namespace
state file. -/
structure NSFile where
  dir : String
  ctx : String
deriving DecidableEq

/-- Modelled from the spec: the fixed well-known state directory
HomeDir()/.kube/kubens, with the home directory abstracted away. -/
def nsFileDefaultDir : String := ".kube/kubens"

/-- NewNSFile (switch.go lines 198-200). -/
def NewNSFile (ctx : String) : NSFile := ⟨nsFileDefaultDir, ctx⟩

/-- strings.ReplaceAll(fn, colon, two underscores) for the one-character pattern:
every colon becomes two underscores. -/
def replaceColons : List Char → List Char
  | [] => []
  | c :: rest =>
    if c = ':' then '_' :: '_' :: replaceColons rest
    else c :: replaceColons rest

/-- The file name used for the state file (switch.go lines 202-208): on Windows every
colon of the context name is replaced by two underscores, otherwise the context name
itself.  The isWindows answer (switch.go lines 233-238) is passed as a parameter. -/
def NSFile.fileName (f : NSFile) (windows : Bool) : String :=
  if windows then String.mk (replaceColons f.ctx.data) else f.ctx

/-- NSFile.path (switch.go lines 202-209): the directory joined with the escaped file
name. -/
def NSFile.path (f : NSFile) (windows : Bool) : String :=
  f.dir ++ "/" ++ f.fileName windows

/-- ASCII approximation of the white space trimmed by bytes.TrimSpace. -/
def isSpaceChar (c : Char) : Bool :=
  c == ' ' || c == '\t' || c == '\n' || c == '\r'

/-- bytes.TrimSpace over a character list. -/
def trimSpace (l : List Char) : List Char :=
  ((l.dropWhile isSpaceChar).reverse.dropWhile isSpaceChar).reverse

/-- NSFile.Load (switch.go lines 212-221): read the previous-namespace file; a missing
file yields the empty string as a success, an existing file its trimmed contents.  The
state directory is modelled as an association list from paths to contents. -/
def NSFile.Load (f : NSFile) (windows : Bool) (files : List (String × String)) :
    Except Unit String :=
  match lookupA files (f.path windows) with
  | none => .ok ""
  | some b => .ok (String.mk (trimSpace b.data))

/-- NSFile.Save (switch.go lines 224-230): write the value to the state file. -/
def NSFile.Save (f : NSFile) (windows : Bool) (value : String)
    (files : List (String × String)) : List (String × String) :=
  setA (f.path windows) value files

/-- Error kinds surfaced by the switch engines, one per message of switch.go. -/
inductive Err where
  | noContextExists (name : String) : Err
  | noPreviousContext : Err
  | namespaceOfContextFailed (ctx : String) : Err
  | namespaceQueryFailed : Err
  | noNamespaceExists (ns : String) : Err
  | setNamespaceFailed (ns : String) : Err
deriving DecidableEq

/-- The whole mutable state the engines touch: the kubeconfig, the global
previous-context record and the previous-namespace state files.  Modelled from the
spec: readLastContext/writeLastContext and kubectxPrevCtxFile are not among the given
sources; the record is a single small text value where the empty string doubles for a
missing file (no history yet). -/
structure St where
  kubeconfig : Kubeconfig
  prevCtx : String
  nsFiles : List (String × String)
deriving DecidableEq

/-- switchContext (switch.go lines 79-108): read the current context, fail when the
target is unknown, set and save the new current context, and record the previous one
only when it differs from the target. -/
def switchContext (st : St) (name : String) : St × Except Err String :=
  let prev := st.kubeconfig.currentContext
  if st.kubeconfig.ContextExists name = true then
    let st2 : St := { st with kubeconfig := { st.kubeconfig with currentContext := name } }
    if prev ≠ name then
      ({ st2 with prevCtx := prev }, .ok name)
    else (st2, .ok name)
  else (st, .error (.noContextExists name))

/-- swapContext (switch.go lines 111-124): read the previous-context record, fail when
it is empty, otherwise delegate to switchContext. -/
def swapContext (st : St) : St × Except Err String :=
  let prev := st.prevCtx
  if prev = "" then (st, .error .noPreviousContext)
  else switchContext st prev

/-- switchNamespace (switch.go lines 127-157): read the namespace currently recorded
for the context, unless forced ask the cluster collaborator whether the target
namespace exists (failing on a negative answer or on a query error), set and save the
namespace, and record the previous namespace only when it differs from the target.
The cluster collaborator namespaceExists is modelled as the oracle env. -/
def switchNamespace (env : String → Except Unit Bool) (windows : Bool) (st : St)
    (ctx ns : String) (force : Bool) : St × Except Err String :=
  match st.kubeconfig.NamespaceOfContext ctx with
  | .error _ => (st, .error (.namespaceOfContextFailed ctx))
  | .ok curNS =>
    let f := NewNSFile ctx
    let check : Except Err Unit :=
      if force then .ok ()
      else
        match env ns with
        | .error _ => .error .namespaceQueryFailed
        | .ok true => .ok ()
        | .ok false => .error (.noNamespaceExists ns)
    match check with
    | .error e => (st, .error e)
    | .ok _ =>
      match st.kubeconfig.SetNamespace ctx ns with
      | .error _ => (st, .error (.setNamespaceFailed ns))
      | .ok kc2 =>
        let st2 : St := { st with kubeconfig := kc2 }
        if curNS ≠ ns then
          ({ st2 with nsFiles := f.Save windows curNS st2.nsFiles }, .ok ns)
        else (st2, .ok ns)

/-- SwitchOp.Run (switch.go lines 45-76): the target - means swap, otherwise a plain
switch; when a namespace was requested (non-empty), switch the namespace of the newly
active context with the existence check enabled. -/
def runSwitchOp (env : String → Except Unit Bool) (windows : Bool)
    (target nsArg : String) (st : St) : St × Except Err String :=
  match (if target = "-" then swapContext st else switchContext st target) with
  | (st1, .error e) => (st1, .error e)
  | (st1, .ok newCtx) =>
    if nsArg ≠ "" then switchNamespace env windows st1 newCtx nsArg false
    else (st1, .ok newCtx)

/-- Overwriting a key in the association list makes lookup of that key return the new
value. -/
theorem lookupA_setA (k v : String) (l : List (String × String)) :
    lookupA (setA k v l) k = some v := by
  induction l with
  | nil => simp [setA, lookupA]
  | cons p rest ih =>
    by_cases h : p.1 = k
    · simp [setA, h, lookupA]
    · simp [setA, h, lookupA, ih]

/-- Explicit form of a successful switchContext: the active pointer moves to the
target and the previous-context record is overwritten exactly when the switch is not a
no-op. -/
theorem switchContext_fst (st : St) (name : String)
    (h : name ∈ st.kubeconfig.contexts) :
    switchContext st name =
      ({ st with
          kubeconfig := { st.kubeconfig with currentContext := name },
          prevCtx :=
            if st.kubeconfig.currentContext = name then st.prevCtx
            else st.kubeconfig.currentContext }, Except.ok name) := by
  unfold switchContext
  rw [if_pos (by simp [Kubeconfig.ContextExists, h])]
  by_cases hc : st.kubeconfig.currentContext = name
  · rw [if_neg (not_not_intro hc), if_pos hc]
  · rw [if_pos hc, if_neg hc]

/-- Explicit form of a successful checked switchNamespace: the namespace of the
context is overwritten and the previous-namespace file is written exactly when the
switch is not a no-op. -/
theorem switchNamespace_fst (env : String → Except Unit Bool) (windows : Bool)
    (st : St) (ctx ns : String)
    (hctx : ctx ∈ st.kubeconfig.contexts) (hq : env ns = Except.ok true) :
    switchNamespace env windows st ctx ns false =
      (let curNS := (lookupA st.kubeconfig.namespaces ctx).getD ""
       let st2 : St :=
         { st with
            kubeconfig :=
              { st.kubeconfig with namespaces := setA ctx ns st.kubeconfig.namespaces } }
       if curNS ≠ ns then
         ({ st2 with nsFiles := (NewNSFile ctx).Save windows curNS st2.nsFiles },
          Except.ok ns)
       else (st2, Except.ok ns)) := by
  unfold switchNamespace Kubeconfig.NamespaceOfContext Kubeconfig.SetNamespace
  rw [if_pos hctx, if_pos hctx, hq]
  rfl

/-- C4: switching to a name that is no known context fails with the not-found error
and leaves the whole state (active pointer, configuration, previous-context record)
unchanged. -/
theorem switchContext_unknown_name_fails_unchanged (st : St) (name : String)
    (h : name ∉ st.kubeconfig.contexts) :
    switchContext st name = (st, Except.error (Err.noContextExists name)) := by
  unfold switchContext
  rw [if_neg (by simp [Kubeconfig.ContextExists, h])]

theorem switchContext_unknown_name_fails_unchanged_witness :
    "c" ∉ (⟨⟨["a", "b"], "a", []⟩, "", []⟩ : St).kubeconfig.contexts ∧
    switchContext ⟨⟨["a", "b"], "a", []⟩, "", []⟩ "c" =
      (⟨⟨["a", "b"], "a", []⟩, "", []⟩, Except.error (Err.noContextExists "c")) :=
  ⟨by decide,
   switchContext_unknown_name_fails_unchanged ⟨⟨["a", "b"], "a", []⟩, "", []⟩ "c"
     (by decide)⟩

/-- C8: argument resolution is total and deterministic - for every self command,
interactivity answer and token sequence, parseArgs yields exactly one operation. -/
theorem parseArgs_total_and_deterministic (selfCmd : String) (interactive : Bool)
    (argv : List String) :
    ∃! op : Op, parseArgs selfCmd interactive argv = op :=
  ⟨parseArgs selfCmd interactive argv, rfl, fun _ h => h.symm⟩

/-- C9: when the previous-namespace state file of a context does not exist, NSFile.Load
succeeds and returns the empty string. -/
theorem nsfile_load_missing_file_empty (f : NSFile) (windows : Bool)
    (files : List (String × String))
    (h : lookupA files (f.path windows) = none) :
    f.Load windows files = Except.ok "" := by
  unfold NSFile.Load
  rw [h]

theorem nsfile_load_missing_file_empty_witness :
    lookupA [] ((⟨".kube/kubens", "c1"⟩ : NSFile).path false) = none ∧
    NSFile.Load ⟨".kube/kubens", "c1"⟩ false [] = Except.ok "" :=
  ⟨rfl, nsfile_load_missing_file_empty ⟨".kube/kubens", "c1"⟩ false [] rfl⟩

/-- C7 counterexample: the Windows escaping of context names into state-file names is
not injective - the distinct context names a:b and a__b yield the same file path, so
the escaping is not reversible. -/
theorem nsfile_escape_collision :
    (NSFile.path ⟨".kube/kubens", "a:b"⟩ true = NSFile.path ⟨".kube/kubens", "a__b"⟩ true) ∧
    ("a:b" : String) ≠ "a__b" := by
  constructor
  · decide
  · decide

/-- C7 amended: the derived file name replaces every colon of the context name by two
underscores on Windows (so it contains no colon, the character illegal in Windows file
names) and is the context name itself elsewhere; the mapping is not reversible. -/
theorem nsfile_fileName_colon_free (f : NSFile) :
    (¬ ':' ∈ (f.fileName true).data) ∧ f.fileName false = f.ctx := by
  constructor
  · show ¬ ':' ∈ (String.mk (replaceColons f.ctx.data)).data
    have : ∀ l : List Char, ¬ ':' ∈ replaceColons l := by
      intro l
      induction l with
      | nil => simp [replaceColons]
      | cons c rest ih =>
        by_cases h : c = ':'
        · simp [replaceColons, h, ih]
        · simp [replaceColons, h, ih, Ne.symm h]
    exact this f.ctx.data
  · rfl

/-- C1: for existing, distinct, non-empty context names A and B, switching to A, then
to B, then swapping leaves A active, and swapping once more returns to B. -/
theorem switch_switch_swap_toggle (st : St) (A B : String)
    (hA : A ∈ st.kubeconfig.contexts) (hB : B ∈ st.kubeconfig.contexts)
    (hAB : A ≠ B) (hA0 : A ≠ "") (hB0 : B ≠ "") :
    (swapContext (switchContext (switchContext st A).1 B).1).1.kubeconfig.currentContext
        = A ∧
    (swapContext
        (swapContext (switchContext (switchContext st A).1 B).1).1).1.kubeconfig.currentContext
        = B := by
  rw [switchContext_fst st A hA]
  simp only
  generalize (if st.kubeconfig.currentContext = A then st.prevCtx
              else st.kubeconfig.currentContext) = p1
  rw [switchContext_fst
        ⟨⟨st.kubeconfig.contexts, A, st.kubeconfig.namespaces⟩, p1, st.nsFiles⟩ B hB]
  simp only [if_neg hAB]
  rw [show (swapContext
        ⟨⟨st.kubeconfig.contexts, B, st.kubeconfig.namespaces⟩, A, st.nsFiles⟩ : St × _)
      = switchContext ⟨⟨st.kubeconfig.contexts, B, st.kubeconfig.namespaces⟩, A, st.nsFiles⟩ A
      from by unfold swapContext; rw [if_neg hA0]]
  rw [switchContext_fst
        ⟨⟨st.kubeconfig.contexts, B, st.kubeconfig.namespaces⟩, A, st.nsFiles⟩ A hA]
  simp only [if_neg (Ne.symm hAB)]
  refine ⟨by trivial, ?_⟩
  rw [show (swapContext
        ⟨⟨st.kubeconfig.contexts, A, st.kubeconfig.namespaces⟩, B, st.nsFiles⟩ : St × _)
      = switchContext ⟨⟨st.kubeconfig.contexts, A, st.kubeconfig.namespaces⟩, B, st.nsFiles⟩ B
      from by unfold swapContext; rw [if_neg hB0]]
  rw [switchContext_fst
        ⟨⟨st.kubeconfig.contexts, A, st.kubeconfig.namespaces⟩, B, st.nsFiles⟩ B hB]

theorem switch_switch_swap_toggle_witness :
    ("a" : String) ∈ (⟨⟨["a", "b"], "a", []⟩, "", []⟩ : St).kubeconfig.contexts ∧
    ("b" : String) ∈ (⟨⟨["a", "b"], "a", []⟩, "", []⟩ : St).kubeconfig.contexts ∧
    ("a" : String) ≠ "b" ∧ ("a" : String) ≠ "" ∧ ("b" : String) ≠ "" ∧
    ((swapContext (switchContext
        (switchContext ⟨⟨["a", "b"], "a", []⟩, "", []⟩ "a").1 "b").1).1.kubeconfig.currentContext
        = "a" ∧
     (swapContext (swapContext (switchContext
        (switchContext ⟨⟨["a", "b"], "a", []⟩, "", []⟩
          "a").1 "b").1).1).1.kubeconfig.currentContext = "b") :=
  ⟨by decide, by decide, by decide, by decide, by decide,
   switch_switch_swap_toggle ⟨⟨["a", "b"], "a", []⟩, "", []⟩ "a" "b"
     (by decide) (by decide) (by decide) (by decide) (by decide)⟩

/-- C2: a no-op switch (target equal to the active value) leaves the corresponding
previous-value record unchanged, and a successful switch to a different target
overwrites the record with the value active immediately before the change - for the
global previous-context record of switchContext and for the per-context
previous-namespace file of switchNamespace alike. -/
theorem noop_switch_preserves_previous_records (env : String → Except Unit Bool)
    (windows : Bool) (st : St) (name ctx ns : String)
    (hname : name ∈ st.kubeconfig.contexts)
    (hctx : ctx ∈ st.kubeconfig.contexts)
    (hq : env ns = Except.ok true) :
    ((switchContext st name).1.prevCtx =
      if st.kubeconfig.currentContext = name then st.prevCtx
      else st.kubeconfig.currentContext) ∧
    ((switchNamespace env windows st ctx ns false).1.nsFiles =
      if (lookupA st.kubeconfig.namespaces ctx).getD "" = ns then st.nsFiles
      else (NewNSFile ctx).Save windows
        ((lookupA st.kubeconfig.namespaces ctx).getD "") st.nsFiles) := by
  constructor
  · rw [switchContext_fst st name hname]
  · rw [switchNamespace_fst env windows st ctx ns hctx hq]
    by_cases h : (lookupA st.kubeconfig.namespaces ctx).getD "" = ns
    · simp [h]
    · simp [h]

theorem noop_switch_preserves_previous_records_witness :
    ("a" : String) ∈ (⟨⟨["a", "b"], "a", [("a", "x")]⟩, "p", []⟩ : St).kubeconfig.contexts ∧
    ("b" : String) ∈ (⟨⟨["a", "b"], "a", [("a", "x")]⟩, "p", []⟩ : St).kubeconfig.contexts ∧
    (fun _ : String => (Except.ok true : Except Unit Bool)) "ns1" = Except.ok true ∧
    (((switchContext ⟨⟨["a", "b"], "a", [("a", "x")]⟩, "p", []⟩ "a").1.prevCtx =
       if (⟨⟨["a", "b"], "a", [("a", "x")]⟩, "p", []⟩ : St).kubeconfig.currentContext = "a"
       then "p" else (⟨⟨["a", "b"], "a", [("a", "x")]⟩, "p", []⟩ : St).kubeconfig.currentContext) ∧
     ((switchNamespace (fun _ => Except.ok true) false
         ⟨⟨["a", "b"], "a", [("a", "x")]⟩, "p", []⟩ "b" "ns1" false).1.nsFiles =
       if (lookupA [("a", "x")] "b").getD "" = "ns1" then []
       else (NewNSFile "b").Save false ((lookupA [("a", "x")] "b").getD "") [])) :=
  ⟨by decide, by decide, rfl,
   noop_switch_preserves_previous_records (fun _ => Except.ok true) false
     ⟨⟨["a", "b"], "a", [("a", "x")]⟩, "p", []⟩ "a" "b" "ns1"
     (by decide) (by decide) rfl⟩

/-- C3: with the existence check enabled, a namespace switch whose target the cluster
reports absent fails with the no-namespace error, and one whose existence query errors
fails with the query error; in both cases the whole state, in particular the
configuration namespace value of the context, is left unchanged. -/
theorem switchNamespace_check_failure_leaves_state (windows : Bool) (st : St)
    (ctx ns : String) (hctx : ctx ∈ st.kubeconfig.contexts) :
    (∀ env : String → Except Unit Bool, env ns = Except.ok false →
      switchNamespace env windows st ctx ns false =
        (st, Except.error (Err.noNamespaceExists ns))) ∧
    (∀ (env : String → Except Unit Bool) (e : Unit), env ns = Except.error e →
      switchNamespace env windows st ctx ns false =
        (st, Except.error Err.namespaceQueryFailed)) := by
  constructor
  · intro env henv
    unfold switchNamespace Kubeconfig.NamespaceOfContext
    rw [if_pos hctx, henv]
    rfl
  · intro env e henv
    unfold switchNamespace Kubeconfig.NamespaceOfContext
    rw [if_pos hctx, henv]
    rfl

theorem switchNamespace_check_failure_leaves_state_witness :
    ("a" : String) ∈ (⟨⟨["a"], "a", []⟩, "", []⟩ : St).kubeconfig.contexts ∧
    ((∀ env : String → Except Unit Bool, env "n1" = Except.ok false →
       switchNamespace env false ⟨⟨["a"], "a", []⟩, "", []⟩ "a" "n1" false =
         (⟨⟨["a"], "a", []⟩, "", []⟩, Except.error (Err.noNamespaceExists "n1"))) ∧
     (∀ (env : String → Except Unit Bool) (e : Unit), env "n1" = Except.error e →
       switchNamespace env false ⟨⟨["a"], "a", []⟩, "", []⟩ "a" "n1" false =
         (⟨⟨["a"], "a", []⟩, "", []⟩, Except.error Err.namespaceQueryFailed))) :=
  ⟨by decide,
   switchNamespace_check_failure_leaves_state false ⟨⟨["a"], "a", []⟩, "", []⟩ "a" "n1"
     (by decide)⟩

/-- A token whose first character is not a dash differs from every token whose first
character is a dash. -/
theorem startsWithDash_ne (v w : String) (hv : startsWithDash v = false)
    (hw : startsWithDash w = true) : v ≠ w := by
  intro h
  rw [h, hw] at hv
  exact absurd hv (by decide)

/-- A token that is no flag (no leading dash, or the bare dash), no rename syntax and
the only remaining token classifies as a plain switch. -/
theorem classifySingle_eq_switch (v ns : String)
    (hd : startsWithDash v = false ∨ v = "-")
    (hr : parseRenameSyntax v = none) :
    classifySingle v ns = Op.SwitchOp v ns := by
  rcases hd with hd | hd
  · have h1 : v ≠ "--help" := startsWithDash_ne v _ hd (by decide)
    have h2 : v ≠ "-h" := startsWithDash_ne v _ hd (by decide)
    have h3 : v ≠ "--version" := startsWithDash_ne v _ hd (by decide)
    have h4 : v ≠ "-V" := startsWithDash_ne v _ hd (by decide)
    have h5 : v ≠ "--current" := startsWithDash_ne v _ hd (by decide)
    have h6 : v ≠ "-c" := startsWithDash_ne v _ hd (by decide)
    have h7 : v ≠ "--unset" := startsWithDash_ne v _ hd (by decide)
    have h8 : v ≠ "-u" := startsWithDash_ne v _ hd (by decide)
    simp [classifySingle, h1, h2, h3, h4, h5, h6, h7, h8, hr, hd]
  · subst hd
    rfl

/-- C5 counterexample: the tokens -n followed by the empty value token are consumed
with zero tokens remaining, yet the resolver answers the plain listing operation, not
the Unsupported operation the claim requires. -/
theorem parseArgs_consumed_ns_empty_value_lists :
    parseArgs "kubectx" false ["-n", ""] = Op.ListOp ∧
    parseArgs "kubectx" false ["-n", ""] ≠
      Op.UnsupportedOp "context name is required when using -n flag" := by
  constructor
  · decide
  · decide

/-- C5 amended: when a namespace flag and its non-empty value token are consumed and
zero tokens remain, the resolver answers Unsupported with the reason that a context
name is required when using the -n flag. -/
theorem parseArgs_ns_flag_requires_context_name (selfCmd : String) (interactive : Bool)
    (f v : String) (hf : f = "-n" ∨ f = "--namespace") (hv : v ≠ "") :
    parseArgs selfCmd interactive [f, v] =
      Op.UnsupportedOp "context name is required when using -n flag" := by
  rcases hf with hf | hf <;> subst hf
  · have h : parseArgs selfCmd interactive ["-n", v] =
        parseTail selfCmd interactive v [] := rfl
    rw [h]
    simp [parseTail, hv]
  · have h : parseArgs selfCmd interactive ["--namespace", v] =
        parseTail selfCmd interactive v [] := rfl
    rw [h]
    simp [parseTail, hv]

theorem parseArgs_ns_flag_requires_context_name_witness :
    (("-n" : String) = "-n" ∨ ("-n" : String) = "--namespace") ∧ ("ns1" : String) ≠ "" ∧
    parseArgs "kubectx" false ["-n", "ns1"] =
      Op.UnsupportedOp "context name is required when using -n flag" :=
  ⟨Or.inl rfl, by decide,
   parseArgs_ns_flag_requires_context_name "kubectx" false "-n" "ns1" (Or.inl rfl)
     (by decide)⟩

/-- C6 counterexample: for the context-name token --help and namespace value ns1 the
token sequence -n ns1 --help resolves to the Help operation, not to the switch
operation with that target and namespace which the claim requires for every context
name. -/
theorem parseArgs_ns_flag_order_breaks_on_reserved_token :
    parseArgs "kubectx" false ["-n", "ns1", "--help"] = Op.HelpOp ∧
    Op.HelpOp ≠ Op.SwitchOp "--help" "ns1" := by
  constructor
  · decide
  · decide

/-- C6 amended: for every context-name token that is not itself flag-like (its first
character is not a dash, or it is the bare dash) and is not rename syntax, the
namespace flag with its value may come before or after the context-name token, both
orders resolving to the same switch operation; and only the first namespace-flag
occurrence is consumed, a repeated flag remaining as an excess token. -/
theorem parseArgs_ns_flag_order_independent (selfCmd : String) (interactive : Bool)
    (c n n2 : String)
    (hd : startsWithDash c = false ∨ c = "-")
    (hr : parseRenameSyntax c = none) :
    parseArgs selfCmd interactive ["-n", n, c] = Op.SwitchOp c n ∧
    parseArgs selfCmd interactive [c, "-n", n] = Op.SwitchOp c n ∧
    parseArgs selfCmd interactive ["-n", n, "-n", n2] =
      Op.UnsupportedOp "too many arguments" := by
  have hcd : c ≠ "-d" := by
    rcases hd with hd | hd
    · exact startsWithDash_ne c _ hd (by decide)
    · subst hd; decide
  have hcn : c ≠ "-n" := by
    rcases hd with hd | hd
    · exact startsWithDash_ne c _ hd (by decide)
    · subst hd; decide
  have hcns : c ≠ "--namespace" := by
    rcases hd with hd | hd
    · exact startsWithDash_ne c _ hd (by decide)
    · subst hd; decide
  refine ⟨?_, ?_, rfl⟩
  · have h : parseArgs selfCmd interactive ["-n", n, c] = classifySingle c n := rfl
    rw [h]
    exact classifySingle_eq_switch c n hd hr
  · have h0 : parseArgs selfCmd interactive [c, "-n", n] =
        (if c = "-d" then Op.DeleteOp ["-n", n]
         else
           match scanNSFlag [c, "-n", n] with
           | NSScan.flagNoValue =>
               Op.UnsupportedOp "\x27-n\x27 requires a namespace argument"
           | NSScan.noFlag => parseTail selfCmd interactive "" [c, "-n", n]
           | NSScan.found ns remaining => parseTail selfCmd interactive ns remaining) :=
      rfl
    have hscan : scanNSFlag [c, "-n", n] = NSScan.found n [c] := by
      unfold scanNSFlag
      rw [if_neg (by rintro (h | h); exact hcn h; exact hcns h)]
      rfl
    rw [h0, if_neg hcd, hscan]
    exact classifySingle_eq_switch c n hd hr

theorem parseArgs_ns_flag_order_independent_witness :
    (startsWithDash "ctx1" = false ∨ ("ctx1" : String) = "-") ∧
    parseRenameSyntax "ctx1" = none ∧
    (parseArgs "kubectx" false ["-n", "ns1", "ctx1"] = Op.SwitchOp "ctx1" "ns1" ∧
     parseArgs "kubectx" false ["ctx1", "-n", "ns1"] = Op.SwitchOp "ctx1" "ns1" ∧
     parseArgs "kubectx" false ["-n", "ns1", "-n", "ns2"] =
       Op.UnsupportedOp "too many arguments") :=
  ⟨Or.inl (by decide), by decide,
   parseArgs_ns_flag_order_independent "kubectx" false "ctx1" "ns1" "ns2"
     (Or.inl (by decide)) (by decide)⟩

/-- C10: the swap-back token composes with the namespace flag - the tokens
- -n NS resolve to the switch operation with target - and that namespace, and running
it swaps back to the previously recorded context and then switches the namespace of
the newly active context to the requested one. -/
theorem swap_token_with_namespace_flag (selfCmd : String) (interactive : Bool)
    (env : String → Except Unit Bool) (windows : Bool) (st : St) (n : String)
    (hp0 : st.prevCtx ≠ "") (hpmem : st.prevCtx ∈ st.kubeconfig.contexts)
    (hn : n ≠ "") (hq : env n = Except.ok true) :
    parseArgs selfCmd interactive ["-", "-n", n] = Op.SwitchOp "-" n ∧
    ((runSwitchOp env windows "-" n st).1.kubeconfig.currentContext = st.prevCtx ∧
     (runSwitchOp env windows "-" n st).1.kubeconfig.NamespaceOfContext st.prevCtx =
       Except.ok n ∧
     (runSwitchOp env windows "-" n st).2 = Except.ok n) := by
  have hswap : swapContext st = switchContext st st.prevCtx := by
    unfold swapContext
    rw [if_neg hp0]
  have hrun : runSwitchOp env windows "-" n st =
      switchNamespace env windows
        ⟨⟨st.kubeconfig.contexts, st.prevCtx, st.kubeconfig.namespaces⟩,
         if st.kubeconfig.currentContext = st.prevCtx then st.prevCtx
         else st.kubeconfig.currentContext, st.nsFiles⟩
        st.prevCtx n false := by
    unfold runSwitchOp
    rw [show (if ("-" : String) = "-" then swapContext st else switchContext st "-")
          = swapContext st from if_pos rfl]
    rw [hswap, switchContext_fst st st.prevCtx hpmem]
    exact if_pos hn
  rw [hrun,
    switchNamespace_fst env windows
      ⟨⟨st.kubeconfig.contexts, st.prevCtx, st.kubeconfig.namespaces⟩,
       if st.kubeconfig.currentContext = st.prevCtx then st.prevCtx
       else st.kubeconfig.currentContext, st.nsFiles⟩
      st.prevCtx n hpmem hq]
  refine ⟨rfl, ?_⟩
  by_cases hcur : (lookupA st.kubeconfig.namespaces st.prevCtx).getD "" = n
  · simp [hcur, Kubeconfig.NamespaceOfContext, hpmem, lookupA_setA]
  · simp [hcur, Kubeconfig.NamespaceOfContext, hpmem, lookupA_setA]

theorem swap_token_with_namespace_flag_witness :
    (⟨⟨["a", "b"], "b", []⟩, "a", []⟩ : St).prevCtx ≠ "" ∧
    (⟨⟨["a", "b"], "b", []⟩, "a", []⟩ : St).prevCtx ∈
      (⟨⟨["a", "b"], "b", []⟩, "a", []⟩ : St).kubeconfig.contexts ∧
    ("ns1" : String) ≠ "" ∧
    (fun _ : String => (Except.ok true : Except Unit Bool)) "ns1" = Except.ok true ∧
    (parseArgs "kubectx" false ["-", "-n", "ns1"] = Op.SwitchOp "-" "ns1" ∧
     ((runSwitchOp (fun _ => Except.ok true) false "-" "ns1"
         ⟨⟨["a", "b"], "b", []⟩, "a", []⟩).1.kubeconfig.currentContext =
        (⟨⟨["a", "b"], "b", []⟩, "a", []⟩ : St).prevCtx ∧
      (runSwitchOp (fun _ => Except.ok true) false "-" "ns1"
         ⟨⟨["a", "b"], "b", []⟩, "a", []⟩).1.kubeconfig.NamespaceOfContext
        (⟨⟨["a", "b"], "b", []⟩, "a", []⟩ : St).prevCtx = Except.ok "ns1" ∧
      (runSwitchOp (fun _ => Except.ok true) false "-" "ns1"
         ⟨⟨["a", "b"], "b", []⟩, "a", []⟩).2 = Except.ok "ns1")) :=
  ⟨by decide, by decide, by decide, rfl,
   swap_token_with_namespace_flag "kubectx" false (fun _ => Except.ok true) false
     ⟨⟨["a", "b"], "b", []⟩, "a", []⟩ "ns1" (by decide) (by decide) (by decide) rfl⟩
